import Mathlib

/-
Verification development for the edx-xapi-bridge ingestion pipeline.

Shallow embedding of:
  * src/xapi_bridge/converter.py   (event-type dispatch, `to_xapi`)
  * src/xapi_bridge/__main__.py    (QueueManager.push / QueueManager.publish,
                                    TailHandler.process_IN_MODIFY)

External collaborators (statement constructors, the LRS network client, the
ignored-event-type configuration) are modelled as parameters/oracles, exactly
as the spec treats them: the constructor either builds an object (which may or
may not carry the required top-level statement shape) or raises the
malformed-statement condition; the network publish call answers success, a
connection-class error, or a storage rejection naming one offending statement.
-/

namespace XapiBridge

/-! ## Converter dispatch (src/xapi_bridge/converter.py) -/

/-- The statement-constructor classes named as values of
`TRACKING_EVENTS_TO_XAPI_STATEMENT_MAP` (converter.py lines 7-44).  The
constructors themselves live in the external `xapi_bridge.statements` package;
here they are opaque identifiers used as dispatch targets. -/
inductive CtorId where
  | courseEnrollmentStatement
  | courseUnenrollmentStatement
  | courseCompletionStatement
  | problemCheckStatement
  | videoStatement
  | videoPlayStatement
  | videoPauseStatement
  | videoCompleteStatement
  | videoSeekStatement
  | videoTranscriptStatement
  deriving DecidableEq, Repr

/-- The dispatch table of converter.py lines 7-44, entry for entry. -/
def TRACKING_EVENTS_TO_XAPI_STATEMENT_MAP : List (String × CtorId) :=
  [ ("edx.course.enrollment.activated", .courseEnrollmentStatement),
    ("edx.course.enrollment.deactivated", .courseUnenrollmentStatement),
    ("edx.certificate.created", .courseCompletionStatement),
    ("problem_check", .problemCheckStatement),
    ("ready_video", .videoStatement),
    ("load_video", .videoStatement),
    ("edx.video.loaded", .videoStatement),
    ("play_video", .videoPlayStatement),
    ("edx.video.played", .videoPlayStatement),
    ("pause_video", .videoPauseStatement),
    ("edx.video.paused", .videoPauseStatement),
    ("stop_video", .videoCompleteStatement),
    ("edx.video.stopped", .videoCompleteStatement),
    ("seek_video", .videoSeekStatement),
    ("edx.video.position.changed", .videoSeekStatement),
    ("show_transcript", .videoTranscriptStatement),
    ("hide_transcript", .videoTranscriptStatement),
    ("edx.video.transcript.shown", .videoTranscriptStatement),
    ("edx.video.transcript.hidden", .videoTranscriptStatement),
    ("edx.video.closed_captions.shown", .videoTranscriptStatement),
    ("edx.video.closed_captions.hidden", .videoTranscriptStatement) ]

/-- Dictionary lookup `TRACKING_EVENTS_TO_XAPI_STATEMENT_MAP[event_type]`
(converter.py line 57); `none` models the `KeyError` path (lines 58-59). -/
def lookupCtor (event_type : String) : Option CtorId :=
  TRACKING_EVENTS_TO_XAPI_STATEMENT_MAP.lookup event_type

/-- Python `s.replace(pat, "")` for a non-empty pattern `pat`: scan left to
right, deleting every non-overlapping occurrence of `pat`.  Fuel-structural so
that it evaluates in the kernel; fuel `s.length` always suffices because each
step consumes at least one character. -/
def pyRemoveAllAux (pat : List Char) : Nat → List Char → List Char
  | _, [] => []
  | 0, s => s
  | fuel + 1, c :: rest =>
    if pat ≠ [] ∧ pat.isPrefixOf (c :: rest) then
      pyRemoveAllAux pat fuel ((c :: rest).drop pat.length)
    else
      c :: pyRemoveAllAux pat fuel rest

/-- Model of `evt['event_type'].replace("xblock-video.", "")` (converter.py line 51):
strips every occurrence of the Video XBlock wrapper marker. -/
def stripXBlockVideo (s : String) : String :=
  String.mk (pyRemoveAllAux "xblock-video.".data s.data.length s.data)

/-- Python-level exceptions that can escape the embedded code paths. -/
inductive PyErr where
  | nameError
  deriving DecidableEq, Repr

/-- Behaviour of the external statement constructor (`statement_class(evt)`,
converter.py line 62) on the record at hand: it builds an object — whose
`hasVersion` flag records whether `hasattr(statement, 'version')` holds
(line 63) — or raises `XAPIMalformedStatementError` (line 65). -/
inductive CtorOutcome (σ : Type) where
  | built (stmt : σ) (hasVersion : Bool)
  | malformed
  deriving DecidableEq, Repr

/-- Observable result of one `to_xapi` call: the returned value (or the
exception that escaped), plus everything printed/logged on the way. -/
structure ToXapiOut (σ : Type) where
  result : Except PyErr (Option (List σ))
  logs : List String

/-- Model of `converter.to_xapi` (converter.py lines 47-66).

* line 51: strip the Video XBlock wrapper from `event_type`;
* lines 53-54: stripped type in `settings.IGNORED_EVENT_TYPES` → return `None`;
* lines 56-59: no table entry (`KeyError`) → return `None`;
* line 62-64: construct; if the object has a `version` attribute return the
  one-element tuple `(statement, )`;
* fall through (object without `version`): implicit `None`, nothing logged;
* lines 65-66: the handler for `XAPIMalformedStatementError` evaluates
  `statement.to_json()`, but `statement` was never bound (the constructor
  raised during the assignment on line 62), so a `NameError` is raised while
  building the message and propagates out of `to_xapi`; the `print` never
  executes, hence `logs = []` on this path too.

`ignored` models the external configuration `settings.IGNORED_EVENT_TYPES`;
`construct` models what the registered constructor class does on this record. -/
def to_xapi (ignored : List String) (construct : CtorId → CtorOutcome σ)
    (event_type : String) : ToXapiOut σ :=
  let et := stripXBlockVideo event_type
  if et ∈ ignored then
    ⟨.ok none, []⟩
  else
    match lookupCtor et with
    | none => ⟨.ok none, []⟩
    | some cid =>
      match construct cid with
      | .built s true => ⟨.ok (some [s]), []⟩
      | .built _ false => ⟨.ok none, []⟩
      | .malformed => ⟨.error .nameError, []⟩

/-- A constructor oracle that always builds a proper statement. -/
def ctorAlways37 : CtorId → CtorOutcome Nat := fun _ => .built 37 true

/-- A constructor oracle that always builds an object lacking the required
top-level statement shape (no `version` attribute). -/
def ctorNoVersion37 : CtorId → CtorOutcome Nat := fun _ => .built 37 false


/-! ## Publish queue (src/xapi_bridge/__main__.py, class QueueManager) -/

/-- Response of the external network publish call
`client.lrs_publisher.publish_statements(statements)` (line 72) on one
attempt, per the interface contract: full success, a connection-class error
(`XAPIBridgeLRSConnectionError`, line 81), or a storage rejection naming one
offending statement (`XAPIBridgeStatementStorageError`, line 89, which
carries `e.statement`). -/
inductive LRSResp (α : Type) where
  | success
  | connError
  | storageError (s : α)

/-- How one `publish()` call ended.
`fatalAbort` is the `e.err_fail()` path (line 87) — modelled from the spec:
the connection failure is reported and the process aborts.  `valueError` is
the Python `ValueError` that `statements.remove(e.statement)` (line 94)
raises when the named statement is not in the list; it is uncaught and
propagates. -/
inductive PubOutcome where
  | published
  | exhausted
  | fatalAbort
  | valueError
  deriving DecidableEq, Repr

/-- Fields of `QueueManager` (lines 31-36): `self.cache`, the armed state of
`self.publish_timer`, `self.publish_retries`,
`self.total_published_successfully`.  (`cache_lock` is modelled separately,
see the lock-event traces below.) -/
structure QMState (α : Type) where
  cache : List α
  timerArmed : Bool
  publish_retries : Nat
  total_published_successfully : Nat
  deriving DecidableEq, Repr

/-- State after `__init__` (lines 31-36): empty cache, no timer, zero counters. -/
def initQMState : QMState α := ⟨[], false, 0, 0⟩

/-- Result of the retry loop of `publish()` (lines 70-94): how it ended, the
number of network publish attempts made, the statements accepted on the
successful attempt (`[]` when none succeeded), and the final values of
`self.publish_retries` and `self.total_published_successfully`. -/
structure LoopResult (α : Type) where
  outcome : PubOutcome
  attempts : Nat
  published : List α
  publish_retries : Nat
  total : Nat
  deriving DecidableEq, Repr

/-- The `while lrs_success is False and len(statements) > 0` loop of
`publish()` (lines 70-94).  `oracle k` is the response of the external LRS
to attempt number `k`.

* empty remaining sequence: loop exits without an attempt;
* success (lines 72-76): `lrs_success = True`, `publish_retries` reset to 0,
  `total_published_successfully` incremented by the batch length;
* connection error (lines 81-88): if `publish_retries <= PUBLISH_MAX_RETRIES`
  increment `publish_retries` and retry the identical sequence, else
  `e.err_fail()` (fatal) and `break`;
* storage rejection (lines 89-94): log and `statements.remove(e.statement)`,
  then retry the shorter sequence; `list.remove` deletes the first occurrence
  or raises `ValueError` when absent. -/
def publishLoop [DecidableEq α] (maxRetries : Nat) (oracle : Nat → LRSResp α)
    (k : Nat) (stmts : List α) (retries total : Nat) : LoopResult α :=
  if stmts = [] then
    ⟨.exhausted, 0, [], retries, total⟩
  else
    match oracle k with
    | .success => ⟨.published, 1, stmts, 0, total + stmts.length⟩
    | .connError =>
      if hr : retries ≤ maxRetries then
        let r := publishLoop maxRetries oracle (k + 1) stmts (retries + 1) total
        { r with attempts := r.attempts + 1 }
      else
        ⟨.fatalAbort, 1, [], retries, total⟩
    | .storageError s =>
      if hs : s ∈ stmts then
        let r := publishLoop maxRetries oracle (k + 1) (stmts.erase s) retries total
        { r with attempts := r.attempts + 1 }
      else
        ⟨.valueError, 1, [], retries, total⟩
termination_by stmts.length * (maxRetries + 2) + (maxRetries + 1 - retries)
decreasing_by
  · omega
  · have h1 := List.length_erase_of_mem hs
    have h2 := List.length_pos_of_mem hs
    have h3 : stmts.length = (stmts.erase s).length + 1 := by omega
    rw [h3, Nat.add_mul]
    omega

/-- Model of `QueueManager.publish` (lines 60-99): under the lock, snapshot the cache
into a statement list, run the retry loop, then — on any normal exit of the
loop — clear `self.cache` and cancel `self.publish_timer` (lines 96-99).
On the fatal path the process aborts inside the loop, and on the
`ValueError` path the exception propagates, so in both cases lines 96-99
are never reached and the cache and timer are left as they were. -/
def publish [DecidableEq α] (maxRetries : Nat) (oracle : Nat → LRSResp α)
    (s : QMState α) : QMState α × LoopResult α :=
  let r := publishLoop maxRetries oracle 0 s.cache s.publish_retries
    s.total_published_successfully
  match r.outcome with
  | .published => (⟨[], false, r.publish_retries, r.total⟩, r)
  | .exhausted => (⟨[], false, r.publish_retries, r.total⟩, r)
  | .fatalAbort =>
    ({ s with publish_retries := r.publish_retries,
              total_published_successfully := r.total }, r)
  | .valueError =>
    ({ s with publish_retries := r.publish_retries,
              total_published_successfully := r.total }, r)

/-- Model of `QueueManager.push` (lines 45-58): append the statement to the cache
(under the lock, lines 48-49); if the cache now has exactly one element and
`PUBLISH_MAX_WAIT_TIME > 0`, arm the publish timer (lines 52-54); if
`PUBLISH_MAX_PAYLOAD <= len(self.cache)`, invoke `publish()` synchronously
(lines 57-58).  Returns the new state and, when publish was invoked, the
batch it was invoked on (`some` of the cache at that moment). -/
def push [DecidableEq α] (maxPayload maxWait maxRetries : Nat)
    (oracle : Nat → LRSResp α) (s : QMState α) (x : α) :
    QMState α × Option (List α) :=
  let c := s.cache ++ [x]
  let armed := if c.length = 1 ∧ 0 < maxWait then true else s.timerArmed
  let s1 : QMState α := ⟨c, armed, s.publish_retries, s.total_published_successfully⟩
  if maxPayload ≤ c.length then
    ((publish maxRetries oracle s1).1, some c)
  else
    (s1, none)

/-- Push a sequence of statements one at a time (repeated
`QueueManager.push`), collecting the batch of every publish invocation that
was triggered, in order. -/
def pushAll [DecidableEq α] (maxPayload maxWait maxRetries : Nat)
    (oracle : Nat → LRSResp α) : QMState α → List α → QMState α × List (List α)
  | s, [] => (s, [])
  | s, x :: xs =>
    let p := push maxPayload maxWait maxRetries oracle s x
    let rest := pushAll maxPayload maxWait maxRetries oracle p.1 xs
    (rest.1, p.2.toList ++ rest.2)

/-- An LRS that always answers with a connection-class error. -/
def connOracle : Nat → LRSResp α := fun _ => .connError

/-- An LRS that always answers success. -/
def succOracle : Nat → LRSResp α := fun _ => .success

/-- An LRS that rejects statement `s` on the first attempt and accepts
everything afterwards. -/
def rejectThenAccept (s : α) : Nat → LRSResp α :=
  fun k => if k = 0 then .storageError s else .success

/-! ## Log tailer (src/xapi_bridge/__main__.py, TailHandler.process_IN_MODIFY) -/

/-- The comprehension `evts = [i for i in buff.split('\n') if len(i) != 0]` (line 147): the
non-empty lines of the buffer. -/
def fullParseLines (buff : String) : List String :=
  (buff.splitOn "\n").filter (fun i => i.length ≠ 0)

/-- A full parse of a buffer: split on the line terminator, drop empty lines,
JSON-decode each line with `parse`, and skip lines that fail to decode
(lines 147-153). -/
def fullParse (parse : String → Option ρ) (buff : String) : List ρ :=
  (fullParseLines buff).filterMap parse

/-- One `process_IN_MODIFY` invocation (lines 135-163), at the level of the
line buffer.  `raceBuffer` is `self.raceBuffer`, `data` the bytes returned by
`self.ifp.read()`, and `parse` models `json.loads` (returning `none` on a
`ValueError`).  Returns the new `self.raceBuffer` and the decoded records
dispatched (each is then fed through `converter.to_xapi`, line 157).

* `buff = self.raceBuffer + self.ifp.read()` (line 138);
* `if len(buff) != 0 and buff[-1] != '\n'` (line 142): keep the whole
  combined buffer as the new race buffer and dispatch nothing (line 143);
* else (lines 145-163): clear the race buffer and dispatch every decoded
  non-empty line. -/
def processRead (parse : String → Option ρ) (raceBuffer data : String) :
    String × List ρ :=
  let buff := raceBuffer ++ data
  if buff.length ≠ 0 ∧ buff.data.getLast? ≠ some '\n' then
    (buff, [])
  else
    ("", fullParse parse buff)

/-- A concrete `json.loads` model for witnesses: recognizes the two-line blob
used in the line-fragmentation scenario. -/
def parseAB : String → Option Nat :=
  fun s => if s = "a" then some 0 else if s = "bc" then some 1 else none

/-! ## Lock coverage (src/xapi_bridge/__main__.py, lines 45-99)

A syntactic embedding of which `QueueManager` operations touch the shared
queue state and where `cache_lock` is held, for the mutual-exclusion claim.
Each trace lists, in program order, the lock transitions and the accesses to
the shared fields along one execution path of the method. -/

/-- One step of a `QueueManager` method body: lock transitions, accesses to
the shared state (`self.cache`, `self.publish_timer`, `self.publish_retries`,
`self.total_published_successfully`), and the external network call. -/
inductive LockEvent where
  | acquire
  | release
  | cacheRead
  | cacheWrite
  | timerRead
  | timerWrite
  | retriesRead
  | retriesWrite
  | totalRead
  | totalWrite
  | lrsCall
  deriving DecidableEq, Repr

/-- Trace of `push` (lines 45-58) along the first-push path with
`PUBLISH_MAX_WAIT_TIME > 0` and the size threshold not yet reached:

* line 48: `with self.cache_lock:` — acquire;
* line 49: `self.cache.append(stmt)` — cache write;
* end of the `with` block — release;
* line 52: `len(self.cache) == 1` — cache read (outside the lock);
* lines 53-54: create and start `self.publish_timer` — timer write
  (outside the lock);
* line 57: `settings.PUBLISH_MAX_PAYLOAD <= len(self.cache)` — cache read
  (outside the lock). -/
def pushEvents : List LockEvent :=
  [.acquire, .cacheWrite, .release, .cacheRead, .timerWrite, .cacheRead]

/-- Trace of `publish` (lines 60-99) along the single-attempt success path:

* line 63: `with self.cache_lock:` — acquire;
* line 68: `StatementList(self.cache)` — cache read;
* line 72: `publish_statements(statements)` — network call;
* line 74: `self.publish_retries = 0` — retries write;
* line 75: `self.total_published_successfully += len(statements)` — total
  read and write;
* line 76: log reads the total — total read;
* line 97: `self.cache = []` — cache write;
* lines 98-99: `if self.publish_timer is not None: self.publish_timer.cancel()`
  — timer read and write;
* end of the `with` block — release. -/
def publishEvents : List LockEvent :=
  [.acquire, .cacheRead, .lrsCall, .retriesWrite, .totalRead, .totalWrite,
   .totalRead, .cacheWrite, .timerRead, .timerWrite, .release]

/-- The lock is held while executing step `i` of a trace iff strictly more
acquires than releases precede step `i`. -/
def lockHeld (tr : List LockEvent) (i : Nat) : Bool :=
  (tr.take i).count .acquire > (tr.take i).count .release

/-- Whether a step touches the shared queue state. -/
def isStateAccess : LockEvent → Bool
  | .acquire => false
  | .release => false
  | .lrsCall => false
  | _ => true

/-- Every shared-state access in the trace happens while the lock is held. -/
def allAccessesLocked (tr : List LockEvent) : Bool :=
  (List.range tr.length).all
    (fun i => !(isStateAccess (tr.getD i .acquire)) || lockHeld tr i)

/-! ## Helper lemmas -/

/-- The loop result returned by `publish` is the result of the retry loop
started on the cached batch, whichever way the loop ended. -/
theorem publish_snd [DecidableEq α] (maxRetries : Nat) (oracle : Nat → LRSResp α)
    (s : QMState α) :
    (publish maxRetries oracle s).2 =
      publishLoop maxRetries oracle 0 s.cache s.publish_retries
        s.total_published_successfully := by
  simp only [publish]
  split <;> rfl

/-- On an always-failing connection, the retry loop started with
`publish_retries = r` (for `r ≤ maxRetries + 1`) aborts fatally after
exactly `maxRetries + 2 - r` attempts, publishing nothing. -/
theorem publishLoop_connError_aux [DecidableEq α] (maxRetries : Nat)
    (stmts : List α) (h : stmts ≠ []) :
    ∀ n r k total, maxRetries + 1 - r = n → r ≤ maxRetries + 1 →
      (publishLoop maxRetries connOracle k stmts r total).outcome = .fatalAbort ∧
      (publishLoop maxRetries connOracle k stmts r total).attempts =
        maxRetries + 2 - r ∧
      (publishLoop maxRetries connOracle k stmts r total).published = [] := by
  intro n
  induction n with
  | zero =>
    intro r k total hn hr
    have hr' : ¬ r ≤ maxRetries := by omega
    rw [publishLoop]
    simp [h, connOracle, hr']
    omega
  | succ n ih =>
    intro r k total hn hr
    have hr' : r ≤ maxRetries := by omega
    obtain ⟨ho, ha, hp⟩ := ih (r + 1) (k + 1) total (by omega) (by omega)
    rw [publishLoop]
    simp [h, connOracle, hr', ho, ha, hp]
    omega

/-- Unfolding one step of `pushAll`. -/
theorem pushAll_cons [DecidableEq α]
    (maxPayload maxWait maxRetries : Nat) (oracle : Nat → LRSResp α)
    (s : QMState α) (x : α) (xs : List α) :
    pushAll maxPayload maxWait maxRetries oracle s (x :: xs) =
      ((pushAll maxPayload maxWait maxRetries oracle
          (push maxPayload maxWait maxRetries oracle s x).1 xs).1,
       (push maxPayload maxWait maxRetries oracle s x).2.toList ++
         (pushAll maxPayload maxWait maxRetries oracle
           (push maxPayload maxWait maxRetries oracle s x).1 xs).2) := rfl

/-- While the batch stays strictly below the size threshold, no push
triggers a publish and the cache accumulates the pushed statements in
order. -/
theorem pushAll_below_threshold [DecidableEq α]
    (maxPayload maxWait maxRetries : Nat) (oracle : Nat → LRSResp α) :
    ∀ (xs : List α) (s : QMState α),
      s.cache.length + xs.length < maxPayload →
      (pushAll maxPayload maxWait maxRetries oracle s xs).2 = [] ∧
      (pushAll maxPayload maxWait maxRetries oracle s xs).1.cache =
        s.cache ++ xs := by
  intro xs
  induction xs with
  | nil => intro s h; simp [pushAll]
  | cons x xs ih =>
    intro s h
    have hlen : ¬ maxPayload ≤ (s.cache ++ [x]).length := by
      simp; simp at h; omega
    simp only [pushAll, push, hlen, if_false]
    constructor
    · exact (ih _ (by simp; simp at h; omega)).1
    · rw [(ih _ (by simp; simp at h; omega)).2]
      simp

/-- When the pushed sequence makes the cache length reach the threshold
exactly at its last element, exactly one publish is triggered, on the full
accumulated batch. -/
theorem pushAll_trigger_last [DecidableEq α]
    (maxPayload maxWait maxRetries : Nat) (oracle : Nat → LRSResp α) :
    ∀ (xs : List α) (s : QMState α), xs ≠ [] →
      s.cache.length + xs.length = maxPayload →
      (pushAll maxPayload maxWait maxRetries oracle s xs).2 =
        [s.cache ++ xs] := by
  intro xs
  induction xs with
  | nil => intro s h; exact absurd rfl h
  | cons x xs ih =>
    intro s _ hlen
    cases xs with
    | nil =>
      have ht : maxPayload ≤ (s.cache ++ [x]).length := by
        simp at hlen ⊢; omega
      have hp2 : (push maxPayload maxWait maxRetries oracle s x).2 =
          some (s.cache ++ [x]) := by
        simp only [push]
        rw [if_pos ht]
      rw [pushAll_cons, hp2]
      simp [pushAll]
    | cons y ys =>
      have ht : ¬ maxPayload ≤ (s.cache ++ [x]).length := by
        simp at hlen ⊢; omega
      have hp2 : (push maxPayload maxWait maxRetries oracle s x).2 = none := by
        simp only [push]
        rw [if_neg ht]
      have hp1c : (push maxPayload maxWait maxRetries oracle s x).1.cache =
          s.cache ++ [x] := by
        simp only [push]
        rw [if_neg ht]
      rw [pushAll_cons, hp2,
        ih _ (by simp) (by rw [hp1c]; simp at hlen ⊢; omega), hp1c]
      simp

/-! ## Claim theorems -/
/-- C8: `to_xapi` first strips the Video XBlock wrapper marker from the
event type; a stripped type in the configured ignore-list, or one with no
entry in the dispatch table, yields no statements and no error (and nothing
logged); and dispatch depends only on the stripped event type, so raw
spellings that strip to the same string map to the same constructor. -/
theorem to_xapi_dispatch_total (ignored : List String)
    (construct : CtorId → CtorOutcome σ) (et : String) :
    (stripXBlockVideo et ∈ ignored →
      to_xapi ignored construct et = ⟨.ok none, []⟩) ∧
    (stripXBlockVideo et ∉ ignored → lookupCtor (stripXBlockVideo et) = none →
      to_xapi ignored construct et = ⟨.ok none, []⟩) ∧
    (∀ et2 : String, stripXBlockVideo et2 = stripXBlockVideo et →
      to_xapi ignored construct et2 = to_xapi ignored construct et) := by
  refine ⟨fun h => ?_, fun h hl => ?_, fun et2 h => ?_⟩
  · simp [to_xapi, h]
  · simp [to_xapi, h, hl]
  · simp only [to_xapi, h]

/-- Witness for C8 at concrete inputs: an ignored event type, an
unregistered event type, and the wrapper-marker alias
`xblock-video.play_video` versus `play_video`. -/
theorem to_xapi_dispatch_total_witness :
    to_xapi ["problem_check"] ctorAlways37 "problem_check" = ⟨.ok none, []⟩ ∧
    to_xapi ([] : List String) ctorAlways37 "unknown_evt" = ⟨.ok none, []⟩ ∧
    to_xapi ([] : List String) ctorAlways37 "xblock-video.play_video" =
      to_xapi ([] : List String) ctorAlways37 "play_video" :=
  ⟨(to_xapi_dispatch_total ["problem_check"] ctorAlways37 "problem_check").1
      (by decide),
   (to_xapi_dispatch_total [] ctorAlways37 "unknown_evt").2.1
      (by decide) (by decide),
   (to_xapi_dispatch_total [] ctorAlways37 "play_video").2.2
      "xblock-video.play_video" (by decide)⟩

/-- C10: whenever `to_xapi` returns (rather than raising), the returned value
is either nothing or a sequence of exactly one statement, never two or more;
and when the constructed object lacks the required `version` attribute,
`to_xapi` returns nothing with an empty log and no exception. -/
theorem to_xapi_at_most_one (ignored : List String)
    (construct : CtorId → CtorOutcome σ) (et : String) :
    (∀ r, (to_xapi ignored construct et).result = .ok r →
      r = none ∨ ∃ s, r = some [s]) ∧
    (∀ cid s, lookupCtor (stripXBlockVideo et) = some cid →
      construct cid = .built s false →
      to_xapi ignored construct et = ⟨.ok none, []⟩) := by
  constructor
  · intro r hr
    by_cases hi : stripXBlockVideo et ∈ ignored
    · simp [to_xapi, hi] at hr
      exact Or.inl hr.symm
    · cases hl : lookupCtor (stripXBlockVideo et) with
      | none =>
        simp [to_xapi, hi, hl] at hr
        exact Or.inl hr.symm
      | some cid =>
        cases hc : construct cid with
        | built s hv =>
          cases hv
          · simp [to_xapi, hi, hl, hc] at hr
            exact Or.inl hr.symm
          · simp [to_xapi, hi, hl, hc] at hr
            exact Or.inr ⟨s, hr.symm⟩
        | malformed => simp [to_xapi, hi, hl, hc] at hr
  · intro cid s hl hc
    by_cases hi : stripXBlockVideo et ∈ ignored
    · simp [to_xapi, hi]
    · simp [to_xapi, hi, hl, hc]

/-- Witness for C10 at concrete inputs: a successful construction returns a
one-element sequence, and a constructed object without the statement shape
yields nothing, silently. -/
theorem to_xapi_at_most_one_witness :
    ((some [37] : Option (List Nat)) = none ∨
      ∃ s, (some [37] : Option (List Nat)) = some [s]) ∧
    to_xapi ([] : List String) ctorNoVersion37 "play_video" = ⟨.ok none, []⟩ :=
  ⟨(to_xapi_at_most_one [] ctorAlways37 "play_video").1 (some [37]) rfl,
   (to_xapi_at_most_one [] ctorNoVersion37 "play_video").2
      .videoPlayStatement 37 (by decide) rfl⟩

/-- C2 (code bug): when the registered constructor raises the
malformed-statement condition, the `except` handler in converter.py line 66
evaluates `statement.to_json()` with `statement` unbound (the constructor
raised before the assignment on line 62 completed), so a `NameError`
propagates out of `to_xapi` and nothing is logged — contrary to the
documented skip-and-continue behaviour.  Evaluated here at the failing
input: a `problem_check` record whose constructor raises. -/
theorem to_xapi_malformed_raises :
    to_xapi ([] : List String)
      (fun _ => (CtorOutcome.malformed : CtorOutcome Nat)) "problem_check" =
      ⟨.error .nameError, []⟩ := rfl

/-- C1 counterexample: with `PUBLISH_MAX_RETRIES = 0` and an LRS that always
answers with a connection error, `publish()` makes 2 network attempts before
the fatal report, not the claimed `max_retries + 1 = 1`.  The guard on line
84 is `self.publish_retries <= settings.PUBLISH_MAX_RETRIES`, so the loop
retries while the counter is at or below the maximum. -/
theorem publish_retry_count_cx :
    (publish 0 (connOracle (α := Nat)) ⟨[0], false, 0, 0⟩).2.attempts = 2 ∧
    (2 : Nat) ≠ 0 + 1 := by
  refine ⟨?_, by decide⟩
  simp [publish, publishLoop, connOracle]

/-- C1 as amended: when every attempt fails with a connection-class error
and the retry counter starts at zero, `publish()` increments the counter and
retries the identical remaining sequence while the counter is at or below
`PUBLISH_MAX_RETRIES`, and treats the failure as fatal once the counter
exceeds the maximum, so exactly `max_retries + 2` publish attempts are made
before the fatal report; nothing is published and publishing stops. -/
theorem publish_retry_exhaustion [DecidableEq α] (maxRetries : Nat)
    (s : QMState α) (h : s.cache ≠ []) (h0 : s.publish_retries = 0) :
    (publish maxRetries connOracle s).2.outcome = .fatalAbort ∧
    (publish maxRetries connOracle s).2.attempts = maxRetries + 2 ∧
    (publish maxRetries connOracle s).2.published = [] := by
  simp only [publish_snd, h0]
  have := publishLoop_connError_aux maxRetries s.cache h (maxRetries + 1) 0 0
    s.total_published_successfully (by omega) (by omega)
  simpa using this

/-- Witness for the amended C1 at `max_retries = 1` and a one-statement
batch: fatal outcome after `1 + 2` attempts. -/
theorem publish_retry_exhaustion_witness :
    (publish 1 (connOracle (α := Nat)) ⟨[9], false, 0, 0⟩).2.outcome =
      .fatalAbort ∧
    (publish 1 (connOracle (α := Nat)) ⟨[9], false, 0, 0⟩).2.attempts = 1 + 2 ∧
    (publish 1 (connOracle (α := Nat)) ⟨[9], false, 0, 0⟩).2.published = [] :=
  publish_retry_exhaustion 1 ⟨[9], false, 0, 0⟩ (by decide) rfl

/-- C3: when the LRS rejects statement `k` of the batch on the first attempt
and accepts everything afterwards, `publish()` removes exactly that
statement (`List.erase` deletes the first occurrence and keeps the relative
order of the rest), retries the shorter sequence within the same call, and
the accepted set is the original batch minus the rejected statement; the
cache is empty afterwards, so the rejected statement is never requeued in a
later batch.  (When the rejected statement was the whole batch, the
remaining sequence empties and the loop exits with nothing accepted, which
is again the batch minus the rejected statement.) -/
theorem publish_storage_rejection [DecidableEq α] (maxRetries : Nat)
    (batch : List α) (k : α) (hk : k ∈ batch) (tm : Bool) (r0 t0 : Nat) :
    publish maxRetries (rejectThenAccept k) ⟨batch, tm, r0, t0⟩ =
      if batch.erase k = [] then
        (⟨[], false, r0, t0⟩, ⟨.exhausted, 1, [], r0, t0⟩)
      else
        (⟨[], false, 0, t0 + (batch.erase k).length⟩,
         ⟨.published, 2, batch.erase k, 0, t0 + (batch.erase k).length⟩) := by
  have hne : batch ≠ [] := List.ne_nil_of_mem hk
  by_cases he : batch.erase k = []
  · have hloop : publishLoop maxRetries (rejectThenAccept k) 0 batch r0 t0 =
        ⟨.exhausted, 1, [], r0, t0⟩ := by
      rw [publishLoop]
      simp [hne, rejectThenAccept, hk]
      rw [publishLoop]
      simp [he]
    simp [publish, hloop, he]
  · have hloop : publishLoop maxRetries (rejectThenAccept k) 0 batch r0 t0 =
        ⟨.published, 2, batch.erase k, 0, t0 + (batch.erase k).length⟩ := by
      rw [publishLoop]
      simp [hne, rejectThenAccept, hk]
      rw [publishLoop]
      simp [he, rejectThenAccept]
      exact List.length_erase_of_mem hk
    simp [publish, hloop, he]

/-- Witness for C3 on the batch `[1, 2, 3]` with statement `2` rejected
once: the accepted set is `[1, 3]` and the cache is cleared. -/
theorem publish_storage_rejection_witness :
    publish 0 (rejectThenAccept 2) (⟨[1, 2, 3], true, 5, 7⟩ : QMState Nat) =
      if [1, 2, 3].erase 2 = [] then
        (⟨[], false, 5, 7⟩, ⟨.exhausted, 1, [], 5, 7⟩)
      else
        (⟨[], false, 0, 7 + ([1, 2, 3].erase 2).length⟩,
         ⟨.published, 2, [1, 2, 3].erase 2, 0,
          7 + ([1, 2, 3].erase 2).length⟩) :=
  publish_storage_rejection 0 [1, 2, 3] 2 (by decide) true 5 7

/-- C6: on every non-fatal return of `publish()` — the network call
succeeded, or the remaining sequence emptied without success — the pending
batch is empty and the deadline timer is cancelled (lines 96-99), so no
batch content carries over to a later `publish()` invocation. -/
theorem publish_clears_on_return [DecidableEq α] (maxRetries : Nat)
    (oracle : Nat → LRSResp α) (s : QMState α)
    (h : (publish maxRetries oracle s).2.outcome = .published ∨
         (publish maxRetries oracle s).2.outcome = .exhausted) :
    (publish maxRetries oracle s).1.cache = [] ∧
    (publish maxRetries oracle s).1.timerArmed = false := by
  rw [publish_snd] at h
  rcases h with h | h <;> simp [publish, h]

/-- Witness for C6: a successful publish of a one-statement batch leaves the
cache empty with the timer cancelled. -/
theorem publish_clears_on_return_witness :
    (publish 0 (succOracle (α := Nat)) ⟨[5], true, 2, 0⟩).1.cache = [] ∧
    (publish 0 (succOracle (α := Nat)) ⟨[5], true, 2, 0⟩).1.timerArmed =
      false :=
  publish_clears_on_return 0 succOracle ⟨[5], true, 2, 0⟩
    (Or.inl (by simp [publish, publishLoop, succOracle]))

/-- C7: calling `publish()` with an empty pending batch performs zero
network attempts and leaves the retry counter and the lifetime counter
unchanged; its only effects are an (already) empty batch and a cancelled
deadline timer. -/
theorem publish_empty_noop [DecidableEq α] (maxRetries : Nat)
    (oracle : Nat → LRSResp α) (s : QMState α) (h : s.cache = []) :
    publish maxRetries oracle s =
      (⟨[], false, s.publish_retries, s.total_published_successfully⟩,
       ⟨.exhausted, 0, [], s.publish_retries,
        s.total_published_successfully⟩) := by
  simp [publish, publishLoop, h]

/-- Witness for C7 with a previously armed timer and nonzero counters. -/
theorem publish_empty_noop_witness :
    publish 0 (succOracle (α := Nat)) ⟨[], true, 3, 7⟩ =
      (⟨[], false, 3, 7⟩, ⟨.exhausted, 0, [], 3, 7⟩) :=
  publish_empty_noop 0 succOracle ⟨[], true, 3, 7⟩ rfl

/-- C5: starting from the initial (empty) queue state, pushing a sequence
whose length equals `PUBLISH_MAX_PAYLOAD ≥ 1` one statement at a time
triggers exactly one synchronous publish call, at the last push, on a batch
that is exactly the pushed sequence in push order; every proper prefix of
the sequence triggers no publish call at all. -/
theorem push_size_trigger [DecidableEq α] (maxPayload maxWait maxRetries : Nat)
    (oracle : Nat → LRSResp α) (xs : List α)
    (hlen : xs.length = maxPayload) (hpos : 1 ≤ maxPayload) :
    (pushAll maxPayload maxWait maxRetries oracle initQMState xs).2 = [xs] ∧
    ∀ k, k < maxPayload →
      (pushAll maxPayload maxWait maxRetries oracle initQMState
        (xs.take k)).2 = [] := by
  constructor
  · have hne : xs ≠ [] := by
      intro hc
      rw [hc] at hlen
      simp at hlen
      omega
    have := pushAll_trigger_last maxPayload maxWait maxRetries oracle xs
      initQMState hne (by simp [initQMState, hlen])
    simpa [initQMState] using this
  · intro k hk
    exact (pushAll_below_threshold maxPayload maxWait maxRetries oracle
      (xs.take k) initQMState (by simp [initQMState, hlen]; omega)).1

/-- Witness for C5 with `PUBLISH_MAX_PAYLOAD = 2`: pushing `[10, 20]`
triggers one publish on exactly `[10, 20]`, and pushing only the first
statement triggers none. -/
theorem push_size_trigger_witness :
    (pushAll 2 1 0 (succOracle (α := Nat)) initQMState [10, 20]).2 =
      [[10, 20]] ∧
    (pushAll 2 1 0 (succOracle (α := Nat)) initQMState
      (List.take 1 [10, 20])).2 = [] :=
  ⟨(push_size_trigger 2 1 0 succOracle [10, 20] rfl (by decide)).1,
   (push_size_trigger 2 1 0 succOracle [10, 20] rfl (by decide)).2 1
     (by decide)⟩

/-- C4 counterexample: on a read whose combined buffer is `"a\nb"` (no
trailing newline), `process_IN_MODIFY` stores the *entire* combined buffer
`"a\nb"` as the new race buffer (line 143), not the trailing partial
segment `"b"` that the claim names — while indeed dispatching zero
records. -/
theorem processRead_race_buffer_cx :
    (processRead parseAB "" "a\nb").1 = "a\nb" ∧
    (processRead parseAB "" "a\nb").2 = ([] : List Nat) ∧
    ("a\nb" : String) ≠ "b" := by
  refine ⟨by decide, by decide, by decide⟩

/-- C4 as amended: for every read whose combined buffer is non-empty and
does not end in a newline, the *entire combined buffer* (which ends in the
partial segment) is stored as the new race buffer and zero records are
dispatched from that read; a subsequent read that completes the final line
dispatches exactly the records of a full parse of the concatenation of both
reads, in order. -/
theorem processRead_partial_line (parse : String → Option ρ) (r1 r2 : String)
    (h1 : r1.data ≠ []) (h2 : r1.data.getLast? ≠ some '\n')
    (h3 : (r1 ++ r2).data.getLast? = some '\n') :
    processRead parse "" r1 = (r1, []) ∧
    processRead parse r1 r2 = ("", fullParse parse (r1 ++ r2)) := by
  have hn : ("" ++ r1) = r1 := by
    apply String.ext
    simp [String.data_append]
  constructor
  · have hl : r1.length ≠ 0 := by
      intro hc
      exact h1 (List.length_eq_zero.mp hc)
    simp only [processRead, hn]
    rw [if_pos ⟨hl, h2⟩]
  · simp only [processRead]
    rw [if_neg]
    intro ⟨_, hc⟩
    exact hc h3

/-- Witness for the amended C4: the blob `"a\nbc\n"` split as `"a\nb"` then
`"c\n"` dispatches nothing on the first read and the full parse of the
concatenation on the second. -/
theorem processRead_partial_line_witness :
    processRead parseAB "" "a\nb" = ("a\nb", []) ∧
    processRead parseAB "a\nb" "c\n" =
      ("", fullParse parseAB ("a\nb" ++ "c\n")) :=
  processRead_partial_line parseAB "a\nb" "c\n" (by decide) (by decide)
    (by decide)

/-- C9 counterexample: in `push` (lines 45-58) the queue's shared state is
*not* accessed only under the lock: the batch-size read for the
timer-arming check (line 52, step 3 of the trace) happens after the lock
was released at the end of the `with` block on line 49. -/
theorem push_lock_coverage_cx :
    allAccessesLocked pushEvents = false ∧
    isStateAccess (pushEvents.getD 3 .acquire) = true ∧
    lockHeld pushEvents 3 = false := by decide

/-- C9 as amended: the lock is held for the full duration of `publish()`
and covers every shared-state access there; in `push` it is held only for
the cache append (line 49) — the batch-size reads for the timer-arming
check (line 52) and the size-threshold check (line 57), and the timer
arming itself (lines 53-54), happen outside the lock. -/
theorem lock_coverage_amended :
    allAccessesLocked publishEvents = true ∧
    lockHeld pushEvents 1 = true ∧
    pushEvents.getD 1 .acquire = .cacheWrite ∧
    lockHeld pushEvents 3 = false ∧
    pushEvents.getD 3 .acquire = .cacheRead ∧
    lockHeld pushEvents 4 = false ∧
    pushEvents.getD 4 .acquire = .timerWrite ∧
    lockHeld pushEvents 5 = false ∧
    pushEvents.getD 5 .acquire = .cacheRead := by decide

end XapiBridge
